import Mathlib

/-!
Shallow embedding of the proof data model and verification boundary logic of
the nmt-rs repository (files `src/simple_merkle/proof.rs` and
`src/nmt_proof.rs`), together with theorems settling the frozen claims about
it.

Modelling conventions:
* `u32` values are embedded as `Nat`; where the source performs a `u32`
  subtraction with the plain `-` operator we apply `u32_wrapping_sub`
  (release-mode two's-complement wraparound), and `u32_sub_underflows`
  records exactly when that subtraction underflows (which is when a build
  with overflow checks enabled panics instead). `saturating_sub` on `u32`
  coincides with truncated `Nat` subtraction for values below `2^32`.
* Fallible functions return `Except RangeProofError _`.
* Calls into collaborators that live outside the given source files
  (`MerkleTree::check_range_proof`, `NamespaceMerkleTree::verify_namespace`,
  `NamespacedHash::hash_leaf`) are represented by returning the exact
  argument bundle the source passes to them (`Except.ok` of a call record);
  the leaf-hash function is taken as an explicit parameter.
-/

/-- Modelled from the spec: the error taxonomy of `simple_merkle/error.rs`
(the file itself is not under `src/`); §7 of the spec lists
`WrongAmountOfLeavesProvided`, `MalformedProof` and a root-mismatch
rejection category. Only the first two are produced by the code under
`src/`. -/
inductive RangeProofError where
  | WrongAmountOfLeavesProvided
  | MalformedProof
  | RootMismatch
deriving DecidableEq

/-- Modulus of the `u32` machine integer type. -/
def U32_MOD : Nat := 4294967296

/-- Wrapping subtraction on `u32` values embedded as naturals below
`U32_MOD`: the release-mode semantics of Rust's plain `-` operator on
`u32`. -/
def u32_wrapping_sub (a b : Nat) : Nat :=
  (a + U32_MOD - b) % U32_MOD

/-- Whether the `u32` subtraction `a - b` underflows; a build with overflow
checks enabled (e.g. a debug build) panics on the plain `-` operator exactly
in this case, while a release build wraps. -/
def u32_sub_underflows (a b : Nat) : Bool :=
  decide (a < b)

/-- Embedding of `Proof<M>` from `src/simple_merkle/proof.rs`: the generic
range-proof container. The digest type `M::Output` is the type parameter
`α`; the field `end` is a Lean keyword and is written `«end»`. -/
structure Proof (α : Type) where
  siblings : List α
  start : Nat
  «end» : Nat
deriving DecidableEq

/-- Embedding of the `Default` instance derived for `Proof`: empty siblings
and `start = end = 0`. -/
def Proof.default (α : Type) : Proof α :=
  { siblings := [], start := 0, «end» := 0 }

/-- Embedding of `Proof::range_len`: `self.end.saturating_sub(self.start)`.
Truncated `Nat` subtraction is exactly `u32` saturating subtraction for
values below `2^32`. -/
def Proof.range_len {α : Type} (p : Proof α) : Nat :=
  p.«end» - p.start

/-- Modelled from the spec: `compute_num_left_siblings` from
`simple_merkle/utils.rs` (not under `src/`). Per §4.1/§6 it is a pure
function of the start index alone — the number of proof siblings lying
strictly to the left of the covered range, determined by the binary
structure of `start` — so it is 0 at `start = 0` (nothing lies strictly left
of the beginning of the tree), and each set bit of `start` contributes one
left sibling at the corresponding tree level. `countSetBits` carries an
explicit fuel argument (the number itself bounds the number of binary
digits) so that the definition is structural and evaluates by `decide`. -/
def countSetBits : Nat → Nat → Nat
  | _, 0 => 0
  | 0, _ + 1 => 0
  | fuel + 1, n + 1 => (n + 1) % 2 + countSetBits fuel ((n + 1) / 2)

/-- Modelled from the spec: see `countSetBits`. -/
def compute_num_left_siblings (node_idx : Nat) : Nat :=
  countSetBits node_idx node_idx

/-- Argument bundle of the delegated call
`MerkleTree::check_range_proof(root, leaf_hashes, siblings, start_idx)`
(collaborator outside `src/`); an `Except.ok` carrying this record stands
for the source handing control to that algorithm with exactly these
arguments. `ignore_max_ns` records the hasher mode the namespaced caller
configures the tree with (`true` is also used for the plain
`MerkleTree::<NoopDb, M>::new()` path where no namespace mode exists; see
each caller). -/
structure CheckRangeProofCall (α : Type) where
  ignore_max_ns : Bool
  root : α
  leaf_hashes : List α
  siblings : List α
  start_idx : Nat
deriving DecidableEq

/-- Embedding of `Proof::verify_range` from `src/simple_merkle/proof.rs`:
rejects with `WrongAmountOfLeavesProvided` unless
`leaf_hashes.len() == self.range_len()`, and otherwise delegates to
`check_range_proof` with the root, the leaf hashes, the proof's siblings and
`start`. The generic simple-merkle path has no namespace mode; the record's
flag is set to `true` as a fixed placeholder there. -/
def Proof.verify_range {α : Type} (p : Proof α) (root : α) (leaf_hashes : List α) :
    Except RangeProofError (CheckRangeProofCall α) :=
  if leaf_hashes.length != p.range_len then
    Except.error RangeProofError.WrongAmountOfLeavesProvided
  else
    Except.ok
      { ignore_max_ns := true
        root := root
        leaf_hashes := leaf_hashes
        siblings := p.siblings
        start_idx := p.start }

/-- Embedding of `Proof::siblings`. -/
def Proof.siblingsAcc {α : Type} (p : Proof α) : List α :=
  p.siblings

/-- Embedding of `Proof::start_idx`. -/
def Proof.start_idx {α : Type} (p : Proof α) : Nat :=
  p.start

/-- Embedding of `Proof::end_idx`. -/
def Proof.end_idx {α : Type} (p : Proof α) : Nat :=
  p.«end»

/-- Embedding of `Proof::leftmost_right_sibling`: with
`k = compute_num_left_siblings(start)`, returns `Some(siblings[k])` when
`siblings.len() > k` and `None` otherwise. The guarded index is expressed
with `List.get` under the guard's bound. -/
def Proof.leftmost_right_sibling {α : Type} (p : Proof α) : Option α :=
  if h : p.siblings.length > compute_num_left_siblings p.start_idx then
    some (p.siblings.get ⟨compute_num_left_siblings p.start_idx, h⟩)
  else
    none

/-- Embedding of `Proof::rightmost_left_sibling`: with
`k = compute_num_left_siblings(start)`, returns `Some(siblings[k - 1])` when
`k != 0 && k <= siblings.len()` and `None` otherwise. -/
def Proof.rightmost_left_sibling {α : Type} (p : Proof α) : Option α :=
  if h : compute_num_left_siblings p.start_idx ≠ 0 ∧
      compute_num_left_siblings p.start_idx ≤ p.siblings.length then
    some (p.siblings.get ⟨compute_num_left_siblings p.start_idx - 1, by omega⟩)
  else
    none

/-- Embedding of `NamespaceProof<M, NS_ID_SIZE>` from `src/nmt_proof.rs`.
The digest type `NamespacedHash<NS_ID_SIZE>` is the type parameter `α`
(siblings and the optional absence boundary leaf have the same digest
type in the source). -/
inductive NamespaceProof (α : Type) where
  | AbsenceProof (proof : Proof α) (ignore_max_ns : Bool) (leaf : Option α)
  | PresenceProof (proof : Proof α) (ignore_max_ns : Bool)
deriving DecidableEq

/-- Projection of the inner `Proof` common to both variants (the field
named `proof` in each variant of the source enum). -/
def NamespaceProof.toProof {α : Type} : NamespaceProof α → Proof α
  | .AbsenceProof proof _ _ => proof
  | .PresenceProof proof _ => proof

/-- Embedding of `NamespaceProof::siblings`. -/
def NamespaceProof.siblings {α : Type} : NamespaceProof α → List α
  | .AbsenceProof proof _ _ | .PresenceProof proof _ => proof.siblings

/-- Embedding of `NamespaceProof::start_idx`. -/
def NamespaceProof.start_idx {α : Type} : NamespaceProof α → Nat
  | .AbsenceProof proof _ _ | .PresenceProof proof _ => proof.start_idx

/-- Embedding of `NamespaceProof::end_idx`. -/
def NamespaceProof.end_idx {α : Type} : NamespaceProof α → Nat
  | .AbsenceProof proof _ _ | .PresenceProof proof _ => proof.end_idx

/-- Embedding of `NamespaceProof::ignores_max_ns`. -/
def NamespaceProof.ignores_max_ns {α : Type} : NamespaceProof α → Bool
  | .AbsenceProof _ ignore_max_ns _ | .PresenceProof _ ignore_max_ns => ignore_max_ns

/-- Embedding of `NamespaceProof::is_of_absence`. -/
def NamespaceProof.is_of_absence {α : Type} : NamespaceProof α → Bool
  | .AbsenceProof _ _ _ => true
  | .PresenceProof _ _ => false

/-- Embedding of `NamespaceProof::is_of_presence`: `!self.is_of_absence()`. -/
def NamespaceProof.is_of_presence {α : Type} (self : NamespaceProof α) : Bool :=
  !self.is_of_absence

/-- Embedding of `NamespaceProof::convert_to_absence_proof`. The source
mutates `&mut self`; the embedding returns the post-state. On an
`AbsenceProof` the match arm is empty (no change, the `leaf` argument is
dropped); on a `PresenceProof` the inner proof is moved out with
`std::mem::take` (a borrow-checker manoeuvre with no observable effect: the
placeholder left behind is overwritten immediately) and the value becomes
`AbsenceProof { proof, ignore_max_ns, leaf: Some(leaf) }`. -/
def NamespaceProof.convert_to_absence_proof {α : Type}
    (self : NamespaceProof α) (leaf : α) : NamespaceProof α :=
  match self with
  | .AbsenceProof proof ignore_max_ns l => .AbsenceProof proof ignore_max_ns l
  | .PresenceProof proof ignore_max_ns =>
      .AbsenceProof proof ignore_max_ns (some leaf)

/-- Embedding of `NamespaceProof::leftmost_right_sibling` (the source
duplicates the arithmetic of `Proof::leftmost_right_sibling` verbatim
against `self.siblings()` and `self.start_idx()`). -/
def NamespaceProof.leftmost_right_sibling {α : Type}
    (self : NamespaceProof α) : Option α :=
  if h : self.siblings.length > compute_num_left_siblings self.start_idx then
    some (self.siblings.get ⟨compute_num_left_siblings self.start_idx, h⟩)
  else
    none

/-- Embedding of `NamespaceProof::rightmost_left_sibling` (duplicated
boundary arithmetic, as in the source). -/
def NamespaceProof.rightmost_left_sibling {α : Type}
    (self : NamespaceProof α) : Option α :=
  if h : compute_num_left_siblings self.start_idx ≠ 0 ∧
      compute_num_left_siblings self.start_idx ≤ self.siblings.length then
    some (self.siblings.get ⟨compute_num_left_siblings self.start_idx - 1, by omega⟩)
  else
    none

/-- Argument bundle of the delegated call
`NamespaceMerkleTree::verify_namespace(root, raw_leaves, namespace, self)`
(collaborator outside `src/`), together with the `ignore_max_ns` mode the
hasher of the freshly built verification tree is configured with. `λ` is the
raw-leaf byte type (`impl AsRef<[u8]>`), `ν` the namespace-id type. -/
structure VerifyNamespaceCall (α lt nt : Type) where
  ignore_max_ns : Bool
  root : α
  raw_leaves : List lt
  target_namespace : nt
  proof : NamespaceProof α
deriving DecidableEq

/-- Embedding of `NamespaceProof::verify_complete_namespace` from
`src/nmt_proof.rs`. The source computes
`proof_len = self.end_idx() - self.start_idx()` with a plain `u32`
subtraction (embedded as `u32_wrapping_sub`), rejects with
`WrongAmountOfLeavesProvided` when the proof is a presence proof and
`raw_leaves.len() != proof_len`, and otherwise builds a verification tree
with a hasher configured for `self.ignores_max_ns()` and delegates to
`verify_namespace`. -/
def NamespaceProof.verify_complete_namespace {α lt nt : Type}
    (self : NamespaceProof α) (root : α) (raw_leaves : List lt) (ns : nt) :
    Except RangeProofError (VerifyNamespaceCall α lt nt) :=
  let proof_len := u32_wrapping_sub self.end_idx self.start_idx
  if self.is_of_presence && (raw_leaves.length != proof_len) then
    Except.error RangeProofError.WrongAmountOfLeavesProvided
  else
    Except.ok
      { ignore_max_ns := self.ignores_max_ns
        root := root
        raw_leaves := raw_leaves
        target_namespace := ns
        proof := self }

/-- Embedding of `NamespaceProof::verify_range` from `src/nmt_proof.rs`.
`hash_leaf` is the collaborator `NamespacedHash::hash_leaf(data, namespace)`
passed as a parameter. The source first rejects absence proofs with
`MalformedProof`; then computes `proof_len = end_idx() - start_idx()` with a
plain `u32` subtraction and rejects a `raw_leaves` list of a different
length with `WrongAmountOfLeavesProvided`; only then hashes every raw leaf
under `leaf_namespace` and delegates to `check_range_proof` on a tree whose
hasher is configured for `self.ignores_max_ns()`. -/
def NamespaceProof.verify_range {α lt nt : Type} (hash_leaf : lt → nt → α)
    (self : NamespaceProof α) (root : α) (raw_leaves : List lt)
    (leaf_namespace : nt) :
    Except RangeProofError (CheckRangeProofCall α) :=
  if self.is_of_absence then
    Except.error RangeProofError.MalformedProof
  else
    let proof_len := u32_wrapping_sub self.end_idx self.start_idx
    if raw_leaves.length != proof_len then
      Except.error RangeProofError.WrongAmountOfLeavesProvided
    else
      let leaf_hashes := raw_leaves.map (fun data => hash_leaf data leaf_namespace)
      Except.ok
        { ignore_max_ns := self.ignores_max_ns
          root := root
          leaf_hashes := leaf_hashes
          siblings := self.siblings
          start_idx := self.start_idx }

/-- Concrete malformed proof (`end < start`) used to exhibit the underflow
in the namespaced verification entry points. -/
def malformedNmtProof : NamespaceProof Nat :=
  .PresenceProof { siblings := [], start := 1, «end» := 0 } false

/-- C9: for every `Proof` value, `range_len()` equals `end - start` when
`end ≥ start` (stated over `Int` so the subtraction is the mathematical
one) and equals `0` when `end < start`; the computation saturates instead
of underflowing. -/
theorem range_len_saturating {α : Type} (p : Proof α) :
    (p.start ≤ p.«end» →
        (p.range_len : Int) = (p.«end» : Int) - (p.start : Int))
    ∧ (p.«end» < p.start → p.range_len = 0) := by
  unfold Proof.range_len
  constructor
  · intro h
    omega
  · intro h
    omega

/-- Witness for C9 at concrete proofs `(start, end) = (3, 7)` and `(7, 3)`. -/
theorem range_len_saturating_witness :
    ((3 : Nat) ≤ 7 ∧
      ((Proof.range_len { siblings := ([] : List Nat), start := 3, «end» := 7 } : Int)
        = (7 : Int) - (3 : Int)))
    ∧ ((3 : Nat) < 7 ∧
      Proof.range_len { siblings := ([] : List Nat), start := 7, «end» := 3 } = 0) :=
  ⟨⟨by decide,
      (range_len_saturating { siblings := ([] : List Nat), start := 3, «end» := 7 }).1
        (by decide)⟩,
    ⟨by decide,
      (range_len_saturating { siblings := ([] : List Nat), start := 7, «end» := 3 }).2
        (by decide)⟩⟩

/-- C2: for every `AbsenceProof` and every leaf-hash collaborator, root,
raw-leaves list and namespace, `NamespaceProof::verify_range` fails with
`MalformedProof`. Because the result is the same for every `hash_leaf` and
every `raw_leaves` list (matching or mismatching length), the variant check
observably precedes both the leaf-count check and any leaf hashing. -/
theorem nmt_verify_range_rejects_absence {α lt nt : Type}
    (hash_leaf : lt → nt → α) (pf : NamespaceProof α) (root : α)
    (raw_leaves : List lt) (ns : nt) (h : pf.is_of_absence = true) :
    NamespaceProof.verify_range hash_leaf pf root raw_leaves ns
      = Except.error RangeProofError.MalformedProof := by
  unfold NamespaceProof.verify_range
  rw [h]
  rfl

/-- Witness for C2: a concrete absence proof of mismatched length is
rejected as `MalformedProof` (not as a length error). -/
theorem nmt_verify_range_rejects_absence_witness :
    (NamespaceProof.AbsenceProof
        { siblings := [], start := 0, «end» := 1 } false (none : Option Nat)).is_of_absence
      = true
    ∧ NamespaceProof.verify_range (fun (a : Nat) (b : Nat) => a + b)
        (NamespaceProof.AbsenceProof
          { siblings := [], start := 0, «end» := 1 } false (none : Option Nat))
        0 [5, 6] 3
      = Except.error RangeProofError.MalformedProof :=
  ⟨by decide,
    nmt_verify_range_rejects_absence (fun (a : Nat) (b : Nat) => a + b)
      (NamespaceProof.AbsenceProof
        { siblings := [], start := 0, «end» := 1 } false (none : Option Nat))
      0 [5, 6] 3 (by decide)⟩

/-- C3: `verify_complete_namespace` checks the leaf count only for presence
proofs. For every absence proof it delegates to the external
namespace-completeness check unconditionally, whatever the length of
`raw_leaves`; for a presence proof with a well-formed `u32` range
(`start ≤ end < 2^32`) it fails with `WrongAmountOfLeavesProvided` exactly
when `raw_leaves.len()` differs from `end - start`. -/
theorem verify_complete_namespace_leaf_count_policy {α lt nt : Type}
    (pf : NamespaceProof α) (root : α) (raw_leaves : List lt) (ns : nt) :
    (pf.is_of_absence = true →
        pf.verify_complete_namespace root raw_leaves ns
          = Except.ok
              { ignore_max_ns := pf.ignores_max_ns
                root := root
                raw_leaves := raw_leaves
                target_namespace := ns
                proof := pf })
    ∧ (pf.is_of_presence = true → pf.start_idx ≤ pf.end_idx →
        pf.end_idx < U32_MOD →
        (pf.verify_complete_namespace root raw_leaves ns
            = Except.error RangeProofError.WrongAmountOfLeavesProvided
          ↔ raw_leaves.length ≠ pf.end_idx - pf.start_idx)) := by
  constructor
  · intro h
    unfold NamespaceProof.verify_complete_namespace
    have hp : pf.is_of_presence = false := by
      unfold NamespaceProof.is_of_presence
      rw [h]
      rfl
    rw [hp]
    rfl
  · intro hp hle hlt
    have hwrap : u32_wrapping_sub pf.end_idx pf.start_idx
        = pf.end_idx - pf.start_idx := by
      unfold u32_wrapping_sub U32_MOD at *
      omega
    unfold NamespaceProof.verify_complete_namespace
    rw [hwrap, hp]
    by_cases hlen : raw_leaves.length = pf.end_idx - pf.start_idx
    · simp [hlen]
    · simp [hlen]

/-- Witness for C3: a concrete absence proof delegates even with a nonempty
`raw_leaves` list, and a concrete presence proof with range length 3 is
rejected when given 1 leaf. -/
theorem verify_complete_namespace_leaf_count_policy_witness :
    ((NamespaceProof.AbsenceProof
          { siblings := [], start := 2, «end» := 2 } true (some 9)
        : NamespaceProof Nat).verify_complete_namespace 0 [1, 2] 4
      = Except.ok
          { ignore_max_ns := true
            root := 0
            raw_leaves := [1, 2]
            target_namespace := 4
            proof := NamespaceProof.AbsenceProof
              { siblings := [], start := 2, «end» := 2 } true (some 9) })
    ∧ ((NamespaceProof.PresenceProof
          { siblings := [], start := 2, «end» := 5 } false
        : NamespaceProof Nat).verify_complete_namespace 0 [1] 4
      = Except.error RangeProofError.WrongAmountOfLeavesProvided) :=
  ⟨(verify_complete_namespace_leaf_count_policy
      (NamespaceProof.AbsenceProof
        { siblings := [], start := 2, «end» := 2 } true (some 9))
      0 [1, 2] 4).1 (by decide),
    ((verify_complete_namespace_leaf_count_policy
      (NamespaceProof.PresenceProof
        { siblings := [], start := 2, «end» := 5 } false)
      0 [1] 4).2 (by decide) (by decide) (by decide)).mpr (by decide)⟩

/-- C4: `Proof::verify_range` fails with `WrongAmountOfLeavesProvided`
whenever `leaf_hashes.len() != range_len()`, delegates to the external
root-reconstruction algorithm exactly when the lengths match, and the
default proof (empty siblings, `start = end = 0`) is rejected via length
mismatch against every non-empty leaf-hash list. -/
theorem proof_verify_range_length_gate {α : Type}
    (p : Proof α) (root : α) (leaf_hashes : List α) :
    (leaf_hashes.length ≠ p.range_len →
        p.verify_range root leaf_hashes
          = Except.error RangeProofError.WrongAmountOfLeavesProvided)
    ∧ (leaf_hashes.length = p.range_len →
        p.verify_range root leaf_hashes
          = Except.ok
              { ignore_max_ns := true
                root := root
                leaf_hashes := leaf_hashes
                siblings := p.siblings
                start_idx := p.start })
    ∧ (leaf_hashes ≠ [] →
        (Proof.default α).verify_range root leaf_hashes
          = Except.error RangeProofError.WrongAmountOfLeavesProvided) := by
  refine ⟨?_, ?_, ?_⟩
  · intro h
    unfold Proof.verify_range
    simp [h]
  · intro h
    unfold Proof.verify_range
    simp [h]
  · intro h
    unfold Proof.verify_range Proof.default Proof.range_len
    have hlen : leaf_hashes.length ≠ 0 := by
      intro hc
      exact h (List.length_eq_zero.mp hc)
    simp [hlen]

/-- Witness for C4 at a concrete proof of range length 2: one leaf hash is
rejected, two are delegated, and the default proof rejects a non-empty
list. -/
theorem proof_verify_range_length_gate_witness :
    (([7] : List Nat).length
        ≠ Proof.range_len ({ siblings := [], start := 1, «end» := 3 } : Proof Nat) ∧
      Proof.verify_range ({ siblings := [], start := 1, «end» := 3 } : Proof Nat) 0 [7]
        = Except.error RangeProofError.WrongAmountOfLeavesProvided)
    ∧ (([7, 8] : List Nat).length
        = Proof.range_len ({ siblings := [], start := 1, «end» := 3 } : Proof Nat) ∧
      Proof.verify_range ({ siblings := [], start := 1, «end» := 3 } : Proof Nat) 0 [7, 8]
        = Except.ok
            { ignore_max_ns := true
              root := 0
              leaf_hashes := [7, 8]
              siblings := []
              start_idx := 1 })
    ∧ Proof.verify_range (Proof.default Nat) 0 [9]
        = Except.error RangeProofError.WrongAmountOfLeavesProvided :=
  ⟨⟨by decide,
      (proof_verify_range_length_gate
        ({ siblings := [], start := 1, «end» := 3 } : Proof Nat) 0 [7]).1 (by decide)⟩,
    ⟨by decide,
      (proof_verify_range_length_gate
        ({ siblings := [], start := 1, «end» := 3 } : Proof Nat) 0 [7, 8]).2.1 (by decide)⟩,
    (proof_verify_range_length_gate (Proof.default Nat) 0 [9]).2.2 (by decide)⟩

/-- C1 (evaluation at the failing input): the namespaced verification entry
points compute `proof_len` with the plain wrapping `u32` subtraction, not
with the saturating `range_len`. On the malformed proof with
`start = 1, end = 0` the subtraction underflows (`u32_sub_underflows` is
`true`, so a build with overflow checks enabled panics inside the entry
point), while the saturating `range_len` of the same proof is 0: an empty
`raw_leaves` list, whose length matches the saturating length, is
nevertheless rejected with `WrongAmountOfLeavesProvided` by both
`NamespaceProof::verify_range` and
`NamespaceProof::verify_complete_namespace`, because the wrapped length is
`2^32 - 1`. -/
theorem nmt_entry_points_not_saturating :
    u32_sub_underflows malformedNmtProof.end_idx malformedNmtProof.start_idx = true
    ∧ malformedNmtProof.toProof.range_len = 0
    ∧ ([] : List Nat).length = malformedNmtProof.toProof.range_len
    ∧ u32_wrapping_sub malformedNmtProof.end_idx malformedNmtProof.start_idx
        = 4294967295
    ∧ NamespaceProof.verify_range (fun (a : Nat) (b : Nat) => a + b)
        malformedNmtProof 0 ([] : List Nat) 0
        = Except.error RangeProofError.WrongAmountOfLeavesProvided
    ∧ malformedNmtProof.verify_complete_namespace 0 ([] : List Nat) 0
        = Except.error RangeProofError.WrongAmountOfLeavesProvided := by
  exact ⟨by decide, by decide, by decide, by decide, rfl, rfl⟩

/-- C5: `convert_to_absence_proof` is idempotent — the second call (on the
already-absence result) changes nothing, so the `leaf` field stays as set by
the first call and `ignore_max_ns` is preserved across both calls. -/
theorem convert_to_absence_proof_idempotent {α : Type}
    (pf : NamespaceProof α) (p : Proof α) (b : Bool) (L1 L2 : α) :
    ((pf.convert_to_absence_proof L1).convert_to_absence_proof L2
        = pf.convert_to_absence_proof L1)
    ∧ (((NamespaceProof.PresenceProof p b).convert_to_absence_proof
          L1).convert_to_absence_proof L2
        = NamespaceProof.AbsenceProof p b (some L1)) := by
  constructor
  · cases pf <;> rfl
  · rfl

/-- C6: converting a `PresenceProof` moves the inner `RangeProof` unchanged
— siblings, start, end and `ignore_max_ns` keep their previous values —
and only the variant tag and the `leaf` field (now `Some leaf`) change. -/
theorem convert_to_absence_proof_frame {α : Type}
    (p : Proof α) (b : Bool) (L : α) :
    ((NamespaceProof.PresenceProof p b).convert_to_absence_proof L).is_of_absence = true
    ∧ ((NamespaceProof.PresenceProof p b).convert_to_absence_proof L).siblings
        = (NamespaceProof.PresenceProof p b).siblings
    ∧ ((NamespaceProof.PresenceProof p b).convert_to_absence_proof L).start_idx
        = (NamespaceProof.PresenceProof p b).start_idx
    ∧ ((NamespaceProof.PresenceProof p b).convert_to_absence_proof L).end_idx
        = (NamespaceProof.PresenceProof p b).end_idx
    ∧ ((NamespaceProof.PresenceProof p b).convert_to_absence_proof L).ignores_max_ns
        = (NamespaceProof.PresenceProof p b).ignores_max_ns
    ∧ ((NamespaceProof.PresenceProof p b).convert_to_absence_proof L)
        = NamespaceProof.AbsenceProof p b (some L) :=
  ⟨rfl, rfl, rfl, rfl, rfl, rfl⟩

/-- C10: on a proof that is already an `AbsenceProof` the conversion is a
complete no-op — the supplied leaf argument is discarded and the existing
`leaf` field (including `None`) is kept. -/
theorem convert_to_absence_proof_noop_on_absence {α : Type}
    (p : Proof α) (b : Bool) (l : Option α) (L : α) :
    ((NamespaceProof.AbsenceProof p b l).convert_to_absence_proof L
        = NamespaceProof.AbsenceProof p b l)
    ∧ ((NamespaceProof.AbsenceProof p b (none : Option α)).convert_to_absence_proof L
        = NamespaceProof.AbsenceProof p b none) :=
  ⟨rfl, rfl⟩

/-- Evaluation at zero of the spec-modelled left-sibling counter: nothing
lies strictly left of the start of the tree. -/
theorem compute_num_left_siblings_zero : compute_num_left_siblings 0 = 0 :=
  rfl

/-- C7: behaviour of the boundary-sibling queries, with
`k = compute_num_left_siblings(start_idx)`: `rightmost_left_sibling` is the
sibling at index `k - 1` when `0 < k ≤ siblings.len()` and `None` otherwise
(hence always `None` when `start_idx = 0`), and `leftmost_right_sibling` is
the sibling at index `k` when `siblings.len() > k` and `None` otherwise
(hence always `None` when `siblings.len() = k`). -/
theorem boundary_sibling_queries_spec {α : Type} (pf : NamespaceProof α) :
    (∀ h : 0 < compute_num_left_siblings pf.start_idx ∧
        compute_num_left_siblings pf.start_idx ≤ pf.siblings.length,
      pf.rightmost_left_sibling
        = some (pf.siblings.get
            ⟨compute_num_left_siblings pf.start_idx - 1, by omega⟩))
    ∧ (¬ (0 < compute_num_left_siblings pf.start_idx ∧
          compute_num_left_siblings pf.start_idx ≤ pf.siblings.length) →
        pf.rightmost_left_sibling = none)
    ∧ (∀ h : compute_num_left_siblings pf.start_idx < pf.siblings.length,
        pf.leftmost_right_sibling
          = some (pf.siblings.get ⟨compute_num_left_siblings pf.start_idx, h⟩))
    ∧ (pf.siblings.length ≤ compute_num_left_siblings pf.start_idx →
        pf.leftmost_right_sibling = none)
    ∧ (pf.start_idx = 0 → pf.rightmost_left_sibling = none)
    ∧ (pf.siblings.length = compute_num_left_siblings pf.start_idx →
        pf.leftmost_right_sibling = none) := by
  refine ⟨?_, ?_, ?_, ?_, ?_, ?_⟩
  · intro h
    unfold NamespaceProof.rightmost_left_sibling
    rw [dif_pos (⟨by omega, h.2⟩ : compute_num_left_siblings pf.start_idx ≠ 0 ∧
      compute_num_left_siblings pf.start_idx ≤ pf.siblings.length)]
  · intro h
    unfold NamespaceProof.rightmost_left_sibling
    exact dif_neg (fun hc => h ⟨Nat.pos_of_ne_zero hc.1, hc.2⟩)
  · intro h
    unfold NamespaceProof.leftmost_right_sibling
    rw [dif_pos h]
  · intro h
    unfold NamespaceProof.leftmost_right_sibling
    exact dif_neg (by omega)
  · intro h
    unfold NamespaceProof.rightmost_left_sibling
    refine dif_neg (fun hc => hc.1 ?_)
    rw [h]
    exact compute_num_left_siblings_zero
  · intro h
    unfold NamespaceProof.leftmost_right_sibling
    exact dif_neg (by omega)

/-- Concrete proof whose range starts at index 1: it has exactly one left
sibling and one right sibling. -/
def pfBoundary : NamespaceProof Nat :=
  .PresenceProof { siblings := [10, 20], start := 1, «end» := 2 } false

/-- Concrete proof whose range starts at index 0. -/
def pfZero : NamespaceProof Nat :=
  .PresenceProof { siblings := [10], start := 0, «end» := 1 } false

/-- Concrete proof whose siblings list length equals the left-sibling
count. -/
def pfEmptySiblings : NamespaceProof Nat :=
  .PresenceProof { siblings := [], start := 0, «end» := 0 } true

/-- Witness for C7 on concrete proofs: at `start_idx = 1` with siblings
`[10, 20]` the boundary queries return `10` and `20`; at `start_idx = 0`
the left query is `None`; with as many left siblings as siblings the right
query is `None`. -/
theorem boundary_sibling_queries_spec_witness :
    (0 < compute_num_left_siblings pfBoundary.start_idx ∧
      compute_num_left_siblings pfBoundary.start_idx ≤ pfBoundary.siblings.length)
    ∧ pfBoundary.rightmost_left_sibling = some 10
    ∧ compute_num_left_siblings pfBoundary.start_idx < pfBoundary.siblings.length
    ∧ pfBoundary.leftmost_right_sibling = some 20
    ∧ pfZero.start_idx = 0
    ∧ pfZero.rightmost_left_sibling = none
    ∧ pfEmptySiblings.siblings.length
        = compute_num_left_siblings pfEmptySiblings.start_idx
    ∧ pfEmptySiblings.leftmost_right_sibling = none :=
  ⟨by decide,
    ((boundary_sibling_queries_spec pfBoundary).1 (by decide)).trans (by decide),
    by decide,
    ((boundary_sibling_queries_spec pfBoundary).2.2.1 (by decide)).trans (by decide),
    by decide,
    (boundary_sibling_queries_spec pfZero).2.2.2.2.1 (by decide),
    by decide,
    (boundary_sibling_queries_spec pfEmptySiblings).2.2.2.2.2 (by decide)⟩

/-- C8: the boundary-sibling queries of `NamespaceProof` agree with those of
the inner `Proof` on both variants — the two duplicated implementations of
the boundary arithmetic are equivalent. -/
theorem nmt_boundary_siblings_eq_inner_proof {α : Type}
    (pf : NamespaceProof α) :
    pf.leftmost_right_sibling = pf.toProof.leftmost_right_sibling
    ∧ pf.rightmost_left_sibling = pf.toProof.rightmost_left_sibling := by
  cases pf <;> exact ⟨rfl, rfl⟩
